import Mathlib

/-!
Shallow embedding of the Camera-Distance-Resolution repository
(`tools.py` and `app.py`).

Python floats are modelled as exact rationals (`ℚ`), Python `int` as `ℤ`.
A Python true division, which raises `ZeroDivisionError` on a zero divisor,
is modelled by `pydiv` in the `Except` monad wherever a claim is about what
happens at a zero divisor; computations whose theorems all assume nonzero
denominators use the total field division of `ℚ` directly.
-/

deriving instance DecidableEq for Except

namespace CameraDist

/-- Errors a Python computation can raise.  `zeroDivisionError` is the raw
numeric error Python raises on division by zero; `invalidDimensionError` and
`invalidUnitError` are the typed errors the specification talks about (no
such types exist anywhere in the source). -/
inductive PyError where
  | zeroDivisionError
  | invalidDimensionError
  | invalidUnitError
deriving DecidableEq

/-- Python true division `a / b`: raises `ZeroDivisionError` when `b = 0`,
otherwise returns the exact quotient. -/
def pydiv (a b : ℚ) : Except PyError ℚ :=
  if b = 0 then .error .zeroDivisionError else .ok (a / b)

/-- Python `int(x)` on a float: truncation toward zero. -/
def pyInt (x : ℚ) : ℤ :=
  if x < 0 then ⌈x⌉ else ⌊x⌋

/-- `app.py`, `class Sensor(BaseModel)`: physical size in mm, resolution in
pixels. -/
structure Sensor where
  sensor_w_mm : ℚ
  sensor_h_mm : ℚ
  sensor_w_px : ℤ
  sensor_h_px : ℤ
deriving DecidableEq

/-- `tools.py`, `calculate_max_ppi`: computes the sensor aspect ratio, the
per-axis floors `int(floor(sensor_px / real_object_dim))`, and picks the
width axis when `real_object_width >= real_object_height * sensor_ratio`.
Each division is a Python division (`pydiv`), performed in source order. -/
def calculate_max_ppi (sensor : Sensor) (real_object_width real_object_height : ℚ) :
    Except PyError ℤ := do
  let sensor_ratio ← pydiv (sensor.sensor_w_px : ℚ) (sensor.sensor_h_px : ℚ)
  let max_w_px : ℤ := ⌊(← pydiv (sensor.sensor_w_px : ℚ) real_object_width)⌋
  let max_h_px : ℤ := ⌊(← pydiv (sensor.sensor_h_px : ℚ) real_object_height)⌋
  if real_object_width ≥ real_object_height * sensor_ratio then
    return max_w_px
  else
    return max_h_px

/-- `tools.py`, `convert_units`: converts a measurement to inches using the
factors 0.393701 (from cm) and 0.0393701 (from mm); any other unit tag,
`"inches"` included, falls through and the measurement is used as inches.
Returns the (mm, cm, inches) triple. -/
def convert_units (measurement : ℚ) (unit : String) : ℚ × ℚ × ℚ :=
  let m : ℚ :=
    if unit = "cm" then measurement * (393701 / 1000000)
    else if unit = "mm" then measurement * (393701 / 10000000)
    else measurement
  (m / (393701 / 10000000 : ℚ), m / (393701 / 1000000 : ℚ), m)

/-- `app.py`, `object_w_px = int(st.session_state.set_ppi * real_object_width)`:
pixel width of the object at the requested resolution. -/
def object_w_px (set_ppi : ℤ) (real_object_width : ℚ) : ℤ :=
  pyInt (set_ppi * real_object_width)

/-- `app.py`, `object_h_px = int(st.session_state.set_ppi * real_object_height)`. -/
def object_h_px (set_ppi : ℤ) (real_object_height : ℚ) : ℤ :=
  pyInt (set_ppi * real_object_height)

/-- `app.py`, `object_w_on_film_mm = (sensor.sensor_w_mm * object_w_px) / sensor.sensor_w_px`.
The division is written with the total division of `ℚ`; every theorem about
this value assumes `sensor_w_px` is positive, as it is for every sensor in
the registry. -/
def object_w_on_film_mm (sensor : Sensor) (set_ppi : ℤ) (real_object_width : ℚ) : ℚ :=
  sensor.sensor_w_mm * (object_w_px set_ppi real_object_width : ℚ) / (sensor.sensor_w_px : ℚ)

/-- `app.py`, `object_h_on_film_mm = (sensor.sensor_h_mm * object_h_px) / sensor.sensor_h_px`. -/
def object_h_on_film_mm (sensor : Sensor) (set_ppi : ℤ) (real_object_height : ℚ) : ℚ :=
  sensor.sensor_h_mm * (object_h_px set_ppi real_object_height : ℚ) / (sensor.sensor_h_px : ℚ)

/-- `app.py`, `PPI = object_w_px / real_object_width`: the effective ppi
actually achieved after the pixel count was truncated to an integer. -/
def PPI (set_ppi : ℤ) (real_object_width : ℚ) : ℚ :=
  (object_w_px set_ppi real_object_width : ℚ) / real_object_width

/-- `app.py`, `distance = (real_object_width * st.session_state.lens_focal_len_mm) / object_w_on_film_mm`:
a Python division, raising `ZeroDivisionError` when the projected width is
zero (as it is when the object width is zero). -/
def distance (sensor : Sensor) (set_ppi : ℤ) (real_object_width lens_focal_len_mm : ℚ) :
    Except PyError ℚ :=
  pydiv (real_object_width * lens_focal_len_mm)
    (object_w_on_film_mm sensor set_ppi real_object_width)

/-- `app.py`, the light-coverage check:
`(real_object_width * st.session_state.radius_multiply) / 2 < max_w_in / 2`
is the condition under which the coverage warning fires. -/
def light_coverage_insufficient (real_object_width radius_multiply max_w_in : ℚ) : Prop :=
  real_object_width * radius_multiply / 2 < max_w_in / 2

instance (real_object_width radius_multiply max_w_in : ℚ) :
    Decidable (light_coverage_insufficient real_object_width radius_multiply max_w_in) := by
  unfold light_coverage_insufficient
  infer_instance

/-- `app.py`, the `while` loop of the light-coverage search: starting from
`r`, step by 0.05 until `(real_object_width * r) / 2 < max_w_in / 2` fails
and return that `r`.  `fuel` bounds the number of iterations so the function
is total; `none` means the fuel ran out before the loop exited. -/
def light_radius_loop (real_object_width max_w_in : ℚ) : ℚ → ℕ → Option ℚ
  | _, 0 => none
  | r, fuel + 1 =>
    if real_object_width * r / 2 < max_w_in / 2 then
      light_radius_loop real_object_width max_w_in (r + 1 / 20) fuel
    else
      some r

/-- `app.py`, the whole light-coverage block: when the check fails, search
upward from `radius_multiply + 0.05`; when the coverage is sufficient no
minimum multiplier is reported. -/
def light_coverage_min_multiplier (real_object_width radius_multiply max_w_in : ℚ)
    (fuel : ℕ) : Option ℚ :=
  if real_object_width * radius_multiply / 2 < max_w_in / 2 then
    light_radius_loop real_object_width max_w_in (radius_multiply + 1 / 20) fuel
  else
    none

/-- `app.py`, the fit warnings: the object fits in frame exactly when neither
the width warning (`object_w_on_film_mm > sensor.sensor_w_mm`) nor the height
warning (`object_h_on_film_mm > sensor.sensor_h_mm`) fires. -/
def fits_in_frame (sensor : Sensor) (set_ppi : ℤ)
    (real_object_width real_object_height : ℚ) : Prop :=
  ¬(object_w_on_film_mm sensor set_ppi real_object_width > sensor.sensor_w_mm) ∧
  ¬(object_h_on_film_mm sensor set_ppi real_object_height > sensor.sensor_h_mm)

instance (sensor : Sensor) (set_ppi : ℤ) (real_object_width real_object_height : ℚ) :
    Decidable (fits_in_frame sensor set_ppi real_object_width real_object_height) := by
  unfold fits_in_frame
  infer_instance

/-- `tools.py`, `plot_lighting_diagram`:
`radius = (real_object_width * radius_multiply) / 2`, the coverage radius. -/
def coverage_radius (real_object_width radius_multiply : ℚ) : ℚ :=
  real_object_width * radius_multiply / 2

/-- `tools.py`, `plot_lighting_diagram`: the numeric endpoints of the two
light lines, light 1 at `(radius * 2.5, radius * 2)` and light 2 at
`(-radius * 2.5, radius * 2)`. -/
def plot_light_positions (real_object_width radius_multiply : ℚ) : (ℚ × ℚ) × (ℚ × ℚ) :=
  let radius := real_object_width * radius_multiply / 2
  let light_1x := radius * (5 / 2)
  let light_1y := radius * 2
  let light_2x := -radius * (5 / 2)
  let light_2y := radius * 2
  ((light_1x, light_1y), (light_2x, light_2y))

/-- Python `round(x, n)` rounds half to even (banker's rounding); modelled
exactly on `ℚ`: the integer nearest to `x * 10 ^ n`, ties to even. -/
def roundHalfEven (x : ℚ) : ℤ :=
  if x - ⌊x⌋ < 1 / 2 then ⌊x⌋
  else if x - ⌊x⌋ > 1 / 2 then ⌊x⌋ + 1
  else if ⌊x⌋ % 2 = 0 then ⌊x⌋ else ⌊x⌋ + 1

/-- Python `round(x, n)` as a rational with at most `n` decimals. -/
def pyRound (x : ℚ) (n : ℕ) : ℚ :=
  (roundHalfEven (x * 10 ^ n) : ℚ) / 10 ^ n

/-- Python `str()` of a float carrying at most two decimals: integer part,
a dot, then the decimals with trailing zeros dropped but at least one decimal
digit kept (`str(round(4088.9, 2)) = "4088.9"`, `str(100.0) = "100.0"`,
`str(4088.05) = "4088.05"`). -/
def floatStr2 (v : ℚ) : String :=
  let c : ℤ := ⌊v * 100⌋
  let sign := if c < 0 then "-" else ""
  let a := c.natAbs
  let ip := a / 100
  let d := a % 100
  sign ++ toString ip ++ "." ++
    (if d % 10 = 0 then toString (d / 10)
     else if d < 10 then "0" ++ toString d
     else toString d)

/-- Python `%` on floats: `a % b = a - b * floor(a / b)` (for `b > 0` the
result lies in `[0, b)`). -/
def pymod (a b : ℚ) : ℚ := a - b * ⌊a / b⌋

/-- Python `str(Fraction(...))`: the reduced fraction printed as `num/den`,
or just `num` when the denominator is 1.  `ℚ` is stored reduced, so
`Fraction(str(q))` for a finite-decimal value `q` is `q` itself. -/
def fractionStr (q : ℚ) : String :=
  if q.den = 1 then toString q.num else toString q.num ++ "/" ++ toString q.den

/-- `tools.py`, `print_measurements`: formats the `(mm, cm, inches)` triple;
mm, cm and inches rounded to two decimals, then a feet part when
`inches // 12 > 0`, a whole-inch remainder when `floor(inches % 12) > 0`, a
vulgar fraction of the sub-inch remainder when
`round(inches - int(inches), 1) > 0`, closed by `" in"`. -/
def print_measurements (measurements : ℚ × ℚ × ℚ) : String :=
  let mm := measurements.1
  let cm := measurements.2.1
  let inches := measurements.2.2
  let s1 := "" ++ floatStr2 (pyRound mm 2) ++ " mm / "
  let s2 := s1 ++ floatStr2 (pyRound cm 2) ++ " cm / "
  let s3 := s2 ++ floatStr2 (pyRound inches 2) ++ " in / "
  let s4 := if 0 < ⌊inches / 12⌋ then s3 ++ toString ⌊inches / 12⌋ ++ " ft" else s3
  let s5 := if 0 < ⌊pymod inches 12⌋ then s4 ++ " " ++ toString ⌊pymod inches 12⌋ else s4
  let s6 :=
    if 0 < pyRound (inches - (pyInt inches : ℚ)) 1 then
      s5 ++ " " ++ fractionStr (pyRound (inches - (pyInt inches : ℚ)) 2)
    else s5
  s6 ++ " in"

lemma pyInt_of_nonneg {x : ℚ} (h : 0 ≤ x) : pyInt x = ⌊x⌋ := by
  unfold pyInt
  rw [if_neg (not_lt.mpr h)]

lemma pyInt_mono {x y : ℚ} (h : x ≤ y) : pyInt x ≤ pyInt y := by
  unfold pyInt
  by_cases hx : x < 0
  · by_cases hy : y < 0
    · simp only [if_pos hx, if_pos hy]
      exact Int.ceil_le_ceil h
    · simp only [if_pos hx, if_neg hy]
      have hc : ⌈x⌉ ≤ 0 := Int.ceil_le.mpr (by exact_mod_cast hx.le)
      exact le_trans hc (Int.floor_nonneg.mpr (not_lt.mp hy))
  · have hy : ¬ y < 0 := fun hy => hx (lt_of_le_of_lt h hy)
    simp only [if_neg hx, if_neg hy]
    exact Int.floor_le_floor h

lemma calculate_max_ppi_ok (sensor : Sensor) (w h : ℚ)
    (hw : w ≠ 0) (hh : h ≠ 0) (hhpx : (sensor.sensor_h_px : ℚ) ≠ 0) :
    calculate_max_ppi sensor w h =
      .ok (if w ≥ h * ((sensor.sensor_w_px : ℚ) / (sensor.sensor_h_px : ℚ))
        then ⌊(sensor.sensor_w_px : ℚ) / w⌋
        else ⌊(sensor.sensor_h_px : ℚ) / h⌋) := by
  simp only [calculate_max_ppi, pydiv, if_neg hw, if_neg hh, if_neg hhpx,
    bind, Except.bind, pure, Except.pure]
  split
  · rfl
  · rfl

/-- C2: for positive subject dimensions and a sensor with positive pixel
dimensions, `calculate_max_ppi` returns `floor(w_px / w)` when
`w ≥ h * (w_px / h_px)` and `floor(h_px / h)` otherwise; the returned value
always equals the minimum of the two single-axis floors; and on the
8256 × 5504 px sensor with a 12in × 8in subject the result is
`floor(8256 / 12) = 688`. -/
theorem calculate_max_ppi_binding_axis_min (sensor : Sensor) (w h : ℚ)
    (hw : 0 < w) (hh : 0 < h)
    (hwpx : 0 < sensor.sensor_w_px) (hhpx : 0 < sensor.sensor_h_px) :
    calculate_max_ppi sensor w h =
      .ok (if w ≥ h * ((sensor.sensor_w_px : ℚ) / (sensor.sensor_h_px : ℚ))
        then ⌊(sensor.sensor_w_px : ℚ) / w⌋
        else ⌊(sensor.sensor_h_px : ℚ) / h⌋) ∧
    calculate_max_ppi sensor w h =
      .ok (min ⌊(sensor.sensor_w_px : ℚ) / w⌋ ⌊(sensor.sensor_h_px : ℚ) / h⌋) ∧
    calculate_max_ppi ⟨36, 24, 8256, 5504⟩ 12 8 = .ok 688 := by
  have hhpx' : ((sensor.sensor_h_px : ℚ)) ≠ 0 := by
    exact_mod_cast hhpx.ne'
  have hhpxq : (0 : ℚ) < (sensor.sensor_h_px : ℚ) := by exact_mod_cast hhpx
  have hok := calculate_max_ppi_ok sensor w h hw.ne' hh.ne' hhpx'
  refine ⟨hok, ?_, ?_⟩
  · rw [hok]
    congr 1
    split
    · rename_i hcond
      refine (min_eq_left ?_).symm
      apply Int.floor_le_floor
      rw [div_le_div_iff hw hh]
      rw [ge_iff_le, ← mul_div_assoc, div_le_iff hhpxq] at hcond
      ring_nf at hcond ⊢
      linarith
    · rename_i hcond
      refine (min_eq_right ?_).symm
      apply Int.floor_le_floor
      push_neg at hcond
      rw [← mul_div_assoc, lt_div_iff hhpxq] at hcond
      rw [div_le_div_iff hh hw]
      ring_nf at hcond ⊢
      linarith
  · simp only [calculate_max_ppi, pydiv, bind, Except.bind, pure, Except.pure]
    norm_num

/-- Witness for C2 at the 8256 × 5504 px sensor and a 10in × 8in subject. -/
theorem calculate_max_ppi_binding_axis_min_witness :
    calculate_max_ppi ⟨36, 24, 8256, 5504⟩ 10 8 =
      .ok (min ⌊((8256 : ℤ) : ℚ) / 10⌋ ⌊((5504 : ℤ) : ℚ) / 8⌋) :=
  (calculate_max_ppi_binding_axis_min ⟨36, 24, 8256, 5504⟩ 10 8
    (by norm_num) (by norm_num) (by norm_num) (by norm_num)).2.1

/-- C6: for a fixed positive subject width, the effective ppi
`PPI set_ppi w = int(set_ppi * w) / w` is monotonically non-decreasing in the
requested target ppi. -/
theorem PPI_monotone (w : ℚ) (t1 t2 : ℤ) (hw : 0 < w) (ht : t1 ≤ t2) :
    PPI t1 w ≤ PPI t2 w := by
  unfold PPI object_w_px
  rw [div_le_div_right hw]
  have hm : (t1 : ℚ) * w ≤ (t2 : ℚ) * w :=
    mul_le_mul_of_nonneg_right (by exact_mod_cast ht) hw.le
  exact_mod_cast pyInt_mono hm

/-- Witness for C6 with subject width 2in, targets 300 and 400 ppi. -/
theorem PPI_monotone_witness : PPI 300 2 ≤ PPI 400 2 :=
  PPI_monotone 2 300 400 (by norm_num) (by norm_num)

/-- C10: for every positive subject width and nonnegative target ppi, the
effective ppi never exceeds the target and falls short of it by less than one
pixel per subject width. -/
theorem PPI_within_one_pixel (w : ℚ) (t : ℤ) (hw : 0 < w) (ht : 0 ≤ t) :
    PPI t w ≤ (t : ℚ) ∧ (t : ℚ) - 1 / w < PPI t w := by
  have hnn : (0 : ℚ) ≤ (t : ℚ) * w := mul_nonneg (by exact_mod_cast ht) hw.le
  have hpx : object_w_px t w = ⌊(t : ℚ) * w⌋ := by
    unfold object_w_px
    exact pyInt_of_nonneg hnn
  constructor
  · unfold PPI
    rw [hpx, div_le_iff hw]
    exact Int.floor_le _
  · unfold PPI
    rw [hpx]
    have h1 : (t : ℚ) * w - 1 < (⌊(t : ℚ) * w⌋ : ℚ) := Int.sub_one_lt_floor _
    have h2 : ((t : ℚ) * w - 1) / w < (⌊(t : ℚ) * w⌋ : ℚ) / w :=
      (div_lt_div_right hw).mpr h1
    rwa [sub_div, mul_div_cancel_right₀ _ hw.ne'] at h2

/-- Witness for C10 with subject width 2in at target 300 ppi. -/
theorem PPI_within_one_pixel_witness :
    PPI 300 2 ≤ ((300 : ℤ) : ℚ) ∧ ((300 : ℤ) : ℚ) - 1 / 2 < PPI 300 2 :=
  PPI_within_one_pixel 2 300 (by norm_num) (by norm_num)

lemma pct_gt_100_iff {a b : ℚ} (hb : 0 < b) : a / b * 100 > 100 ↔ a > b := by
  rw [gt_iff_lt, gt_iff_lt, ← one_lt_div hb]
  constructor <;> intro <;> linarith

/-- C4: the framing result fails to fit in frame exactly when at least one of
the two sensor fill percentages (projected size over sensor size, times 100)
exceeds 100. -/
theorem fits_in_frame_iff_fill_pct (sensor : Sensor) (set_ppi : ℤ) (w h : ℚ)
    (hwmm : 0 < sensor.sensor_w_mm) (hhmm : 0 < sensor.sensor_h_mm) :
    (¬ fits_in_frame sensor set_ppi w h) ↔
      (object_w_on_film_mm sensor set_ppi w / sensor.sensor_w_mm * 100 > 100 ∨
       object_h_on_film_mm sensor set_ppi h / sensor.sensor_h_mm * 100 > 100) := by
  unfold fits_in_frame
  rw [not_and_or, not_not, not_not]
  exact or_congr (pct_gt_100_iff hwmm).symm (pct_gt_100_iff hhmm).symm

/-- Witness for C4 on the 36mm × 24mm, 8256 × 5504 px sensor at 300 ppi with
a 10in × 8in subject. -/
theorem fits_in_frame_iff_fill_pct_witness :
    (¬ fits_in_frame ⟨36, 24, 8256, 5504⟩ 300 10 8) ↔
      (object_w_on_film_mm ⟨36, 24, 8256, 5504⟩ 300 10 / (36 : ℚ) * 100 > 100 ∨
       object_h_on_film_mm ⟨36, 24, 8256, 5504⟩ 300 8 / (24 : ℚ) * 100 > 100) :=
  fits_in_frame_iff_fill_pct ⟨36, 24, 8256, 5504⟩ 300 10 8 (by norm_num) (by norm_num)

/-- C7: light 1 sits at `(coverage_radius * 2.5, coverage_radius * 2)` and
light 2 is its exact mirror image across the vertical axis: same height,
opposite horizontal offset. -/
theorem plot_light_positions_mirror (w m : ℚ) :
    (plot_light_positions w m).1 =
      (coverage_radius w m * (5 / 2), coverage_radius w m * 2) ∧
    (plot_light_positions w m).2 =
      (-((plot_light_positions w m).1.1), (plot_light_positions w m).1.2) := by
  constructor
  · simp [plot_light_positions, coverage_radius]
  · simp [plot_light_positions, coverage_radius, neg_mul]

/-- C1 (amended): when the subject width or height is zero (on a sensor with
nonzero pixel counts), `calculate_max_ppi` raises the raw Python
`ZeroDivisionError` at the division itself, and when the width is zero the
distance computation does the same; no typed `InvalidDimensionError` exists
anywhere in the code, and no numeric zero/NaN result is returned. -/
theorem zero_dimension_raises_zero_division (sensor : Sensor) (set_ppi : ℤ)
    (w h focal : ℚ) (hhpx : (sensor.sensor_h_px : ℚ) ≠ 0)
    (hwpx : (sensor.sensor_w_px : ℚ) ≠ 0) (hwh : w = 0 ∨ h = 0) :
    calculate_max_ppi sensor w h = .error .zeroDivisionError ∧
    (w = 0 → distance sensor set_ppi w focal = .error .zeroDivisionError) := by
  constructor
  · rcases hwh with hw0 | hh0
    · subst hw0
      simp [calculate_max_ppi, pydiv, hhpx, bind, Except.bind]
    · subst hh0
      by_cases hw0 : w = 0
      · subst hw0
        simp [calculate_max_ppi, pydiv, hhpx, bind, Except.bind]
      · simp [calculate_max_ppi, pydiv, hhpx, hw0, bind, Except.bind]
  · intro hw0
    subst hw0
    have hpx0 : object_w_px set_ppi 0 = 0 := by
      unfold object_w_px pyInt
      simp
    simp [distance, object_w_on_film_mm, hpx0, pydiv]

/-- Witness for C1's amended statement at the 8256 × 5504 px sensor with
subject width 0. -/
theorem zero_dimension_raises_zero_division_witness :
    calculate_max_ppi ⟨36, 24, 8256, 5504⟩ 0 8 = .error .zeroDivisionError ∧
    ((0 : ℚ) = 0 → distance ⟨36, 24, 8256, 5504⟩ 300 0 105 = .error .zeroDivisionError) :=
  zero_dimension_raises_zero_division ⟨36, 24, 8256, 5504⟩ 300 0 8 105
    (by norm_num) (by norm_num) (Or.inl rfl)

/-- C1 is false of the code as stated: at subject width 0 the framing
computation raises the raw `ZeroDivisionError`, not a typed
`InvalidDimensionError`. -/
theorem calculate_max_ppi_zero_width_untyped_error :
    calculate_max_ppi ⟨36, 24, 8256, 5504⟩ 0 8 = .error .zeroDivisionError ∧
    ¬ calculate_max_ppi ⟨36, 24, 8256, 5504⟩ 0 8 = .error .invalidDimensionError := by
  have h : calculate_max_ppi ⟨36, 24, 8256, 5504⟩ 0 8 = .error .zeroDivisionError := by
    simp only [calculate_max_ppi, pydiv, bind, Except.bind, pure, Except.pure]
    norm_num
  refine ⟨h, ?_⟩
  rw [h]
  intro hcon
  exact absurd (Except.error.inj hcon) (by decide)

/-- C5 is false of the code as stated: `"feet"` is not one of mm, cm or
inches, yet `convert_units` returns a triple, treating the measurement as
inches; nothing is raised. -/
theorem convert_units_unknown_tag_returns :
    convert_units 7 "feet" =
      (7 / (393701 / 10000000 : ℚ), 7 / (393701 / 1000000 : ℚ), 7) := by
  simp only [convert_units]
  rw [if_neg (by decide), if_neg (by decide)]

/-- C5 (amended): any unit tag other than `"cm"` and `"mm"` — the recognized
`"inches"` or an arbitrary unknown tag alike — falls through the conversion
unchanged and is treated as inches; the code never fails on a unit tag. -/
theorem convert_units_unrecognized_treated_as_inches (m : ℚ) (u : String)
    (h1 : u ≠ "cm") (h2 : u ≠ "mm") :
    convert_units m u = convert_units m "inches" := by
  simp only [convert_units, if_neg h1, if_neg h2]
  rw [if_neg (by decide), if_neg (by decide)]

/-- Witness for C5's amended statement at the unknown tag `"feet"`. -/
theorem convert_units_unrecognized_treated_as_inches_witness :
    convert_units 7 "feet" = convert_units 7 "inches" :=
  convert_units_unrecognized_treated_as_inches 7 "feet" (by decide) (by decide)

lemma light_radius_loop_some (w maxw : ℚ) (fuel : ℕ) :
    ∀ (r0 r : ℚ), light_radius_loop w maxw r0 fuel = some r →
      (∃ k : ℕ, r = r0 + k * (1 / 20) ∧
        ∀ j : ℕ, j < k → w * (r0 + j * (1 / 20)) / 2 < maxw / 2) ∧
      ¬(w * r / 2 < maxw / 2) := by
  induction fuel with
  | zero =>
    intro r0 r hcon
    simp [light_radius_loop] at hcon
  | succ n ih =>
    intro r0 r hloop
    simp only [light_radius_loop] at hloop
    by_cases hc : w * r0 / 2 < maxw / 2
    · rw [if_pos hc] at hloop
      obtain ⟨⟨k, hk, hmin⟩, hfeas⟩ := ih (r0 + 1 / 20) r hloop
      refine ⟨⟨k + 1, ?_, ?_⟩, hfeas⟩
      · rw [hk]
        push_cast
        ring
      · intro j hj
        cases j with
        | zero => simpa using hc
        | succ j' =>
          have heq : r0 + ((j' + 1 : ℕ) : ℚ) * (1 / 20) =
              (r0 + 1 / 20) + (j' : ℚ) * (1 / 20) := by
            push_cast
            ring
          rw [heq]
          exact hmin j' (by omega)
    · rw [if_neg hc] at hloop
      obtain rfl : r0 = r := Option.some.inj hloop
      refine ⟨⟨0, by push_cast; ring, ?_⟩, hc⟩
      intro j hj
      exact absurd hj (Nat.not_lt_zero j)

/-- C3: the lighting placement is infeasible exactly when the coverage radius
`subject_width * multiplier / 2` is strictly below half the max frame width;
whenever the search reports a minimum multiplier, that multiplier was reached
from `radius_multiply + 0.05` in 0.05 steps, every earlier step still failed
the check, and re-running the feasibility check at the reported multiplier
succeeds. -/
theorem light_coverage_min_multiplier_spec (w mult maxw : ℚ) (fuel : ℕ) (r : ℚ)
    (hw : 0 < w) :
    (light_coverage_insufficient w mult maxw ↔ coverage_radius w mult < maxw / 2) ∧
    (light_coverage_min_multiplier w mult maxw fuel = some r →
      (∃ k : ℕ, r = mult + 1 / 20 + k * (1 / 20) ∧
        ∀ j : ℕ, j < k →
          light_coverage_insufficient w (mult + 1 / 20 + j * (1 / 20)) maxw) ∧
      ¬ light_coverage_insufficient w r maxw) := by
  constructor
  · exact Iff.rfl
  · intro hres
    unfold light_coverage_min_multiplier at hres
    by_cases hc : w * mult / 2 < maxw / 2
    · rw [if_pos hc] at hres
      obtain ⟨⟨k, hk, hmin⟩, hfeas⟩ := light_radius_loop_some w maxw fuel (mult + 1 / 20) r hres
      exact ⟨⟨k, hk, fun j hj => hmin j hj⟩, hfeas⟩
    · rw [if_neg hc] at hres
      exact absurd hres (by simp)

/-- Witness for C3 with a 10in subject, multiplier 1, max frame width 20in:
the search reports multiplier 2, at which coverage is feasible. -/
theorem light_coverage_min_multiplier_spec_witness :
    (light_coverage_insufficient 10 1 20 ↔ coverage_radius 10 1 < 20 / 2) ∧
    (light_coverage_min_multiplier 10 1 20 100 = some 2 →
      (∃ k : ℕ, (2 : ℚ) = 1 + 1 / 20 + k * (1 / 20) ∧
        ∀ j : ℕ, j < k →
          light_coverage_insufficient 10 (1 + 1 / 20 + j * (1 / 20)) 20) ∧
      ¬ light_coverage_insufficient 10 2 20) :=
  light_coverage_min_multiplier_spec 10 1 20 100 2 (by norm_num)

lemma light_radius_loop_fuel (w maxw : ℚ) :
    ∀ (n : ℕ) (r0 : ℚ), maxw ≤ w * r0 + n * (w / 20) →
      ∃ r, light_radius_loop w maxw r0 (n + 1) = some r := by
  intro n
  induction n with
  | zero =>
    intro r0 hle
    norm_num at hle
    refine ⟨r0, ?_⟩
    simp only [light_radius_loop]
    rw [if_neg (by push_neg; linarith)]
  | succ n ih =>
    intro r0 hle
    by_cases hc : w * r0 / 2 < maxw / 2
    · obtain ⟨r, hr⟩ := ih (r0 + 1 / 20) (by push_cast at hle ⊢; ring_nf at hle ⊢; linarith)
      refine ⟨r, ?_⟩
      simp only [light_radius_loop]
      rw [if_pos hc]
      exact hr
    · refine ⟨r0, ?_⟩
      simp only [light_radius_loop]
      rw [if_neg hc]

/-- C8: for every positive subject width, every starting multiplier and every
max frame width, the 0.05-step feasibility search started at
`radius_multiply + 0.05` terminates: some finite fuel suffices for the loop
to return a value. -/
theorem light_radius_search_terminates (w mult maxw : ℚ) (hw : 0 < w) :
    ∃ (fuel : ℕ) (r : ℚ),
      light_radius_loop w maxw (mult + 1 / 20) fuel = some r := by
  have h20 : (0 : ℚ) < w / 20 := by positivity
  refine ⟨(⌈(maxw - w * (mult + 1 / 20)) / (w / 20)⌉).toNat + 1, ?_⟩
  have hq : (maxw - w * (mult + 1 / 20)) / (w / 20) ≤
      ((⌈(maxw - w * (mult + 1 / 20)) / (w / 20)⌉).toNat : ℚ) := by
    have h1 : (maxw - w * (mult + 1 / 20)) / (w / 20) ≤
        ((⌈(maxw - w * (mult + 1 / 20)) / (w / 20)⌉ : ℤ) : ℚ) := Int.le_ceil _
    have h2 : (⌈(maxw - w * (mult + 1 / 20)) / (w / 20)⌉ : ℤ) ≤
        ((⌈(maxw - w * (mult + 1 / 20)) / (w / 20)⌉).toNat : ℤ) := Int.self_le_toNat _
    exact h1.trans (by exact_mod_cast h2)
  have hle : maxw ≤ w * (mult + 1 / 20) +
      ((⌈(maxw - w * (mult + 1 / 20)) / (w / 20)⌉).toNat : ℚ) * (w / 20) := by
    rw [div_le_iff h20] at hq
    linarith
  exact light_radius_loop_fuel w maxw _ _ hle

/-- Witness for C8 with a 10in subject, multiplier 1, max frame width 20in. -/
theorem light_radius_search_terminates_witness :
    ∃ (fuel : ℕ) (r : ℚ), light_radius_loop 10 20 (1 + 1 / 20) fuel = some r :=
  light_radius_search_terminates 10 1 20 (by norm_num)

/-- C9: for a nonnegative inches value, the formatter produces the rounded
`mm / cm / in` prefix, appends the feet component exactly when
`inches ≥ 12` (equivalent to the code's integer division test), appends the
whole-inch remainder exactly when `floor(inches mod 12) > 0`, appends the
vulgar fraction, built from the 2-decimal rounded sub-inch remainder, exactly
when that remainder rounds to a nonzero tenth — and the appended fraction is
reduced. -/
theorem print_measurements_structure (mm cm inches : ℚ) (h : 0 ≤ inches) :
    print_measurements (mm, cm, inches) =
      floatStr2 (pyRound mm 2) ++ " mm / " ++ floatStr2 (pyRound cm 2) ++ " cm / " ++
      floatStr2 (pyRound inches 2) ++ " in / " ++
      (if 12 ≤ inches then toString ⌊inches / 12⌋ ++ " ft" else "") ++
      (if 0 < ⌊pymod inches 12⌋ then " " ++ toString ⌊pymod inches 12⌋ else "") ++
      (if 0 < pyRound (inches - (⌊inches⌋ : ℚ)) 1 then
        " " ++ fractionStr (pyRound (inches - (⌊inches⌋ : ℚ)) 2)
      else "") ++ " in" ∧
    (pyRound (inches - (⌊inches⌋ : ℚ)) 2).num.natAbs.Coprime
      (pyRound (inches - (⌊inches⌋ : ℚ)) 2).den := by
  have hpy : pyInt inches = ⌊inches⌋ := pyInt_of_nonneg h
  have hft : (0 < ⌊inches / 12⌋) ↔ (12 ≤ inches) := by
    rw [Int.lt_iff_add_one_le, zero_add, Int.le_floor]
    push_cast
    rw [le_div_iff (by norm_num : (0 : ℚ) < 12)]
    constructor <;> intro <;> linarith
  constructor
  · unfold print_measurements
    simp only [hpy, hft]
    split_ifs <;>
      simp only [String.append_assoc, String.append_empty, String.empty_append]
  · exact (pyRound (inches - (⌊inches⌋ : ℚ)) 2).reduced

/-- Witness for C9 at the docstring example of `print_measurements`:
`(4088.9 mm, 408.89 cm, 160.98 in)`. -/
theorem print_measurements_structure_witness :
    print_measurements (40889 / 10, 40889 / 100, 16098 / 100) =
      floatStr2 (pyRound (40889 / 10) 2) ++ " mm / " ++
      floatStr2 (pyRound (40889 / 100) 2) ++ " cm / " ++
      floatStr2 (pyRound (16098 / 100) 2) ++ " in / " ++
      (if 12 ≤ (16098 / 100 : ℚ) then toString ⌊(16098 / 100 : ℚ) / 12⌋ ++ " ft" else "") ++
      (if 0 < ⌊pymod (16098 / 100) 12⌋ then
        " " ++ toString ⌊pymod (16098 / 100) 12⌋
      else "") ++
      (if 0 < pyRound ((16098 / 100 : ℚ) - (⌊(16098 / 100 : ℚ)⌋ : ℚ)) 1 then
        " " ++ fractionStr (pyRound ((16098 / 100 : ℚ) - (⌊(16098 / 100 : ℚ)⌋ : ℚ)) 2)
      else "") ++ " in" ∧
    (pyRound ((16098 / 100 : ℚ) - (⌊(16098 / 100 : ℚ)⌋ : ℚ)) 2).num.natAbs.Coprime
      (pyRound ((16098 / 100 : ℚ) - (⌊(16098 / 100 : ℚ)⌋ : ℚ)) 2).den :=
  print_measurements_structure (40889 / 10) (40889 / 100) (16098 / 100) (by norm_num)

end CameraDist
